import Mathlib

/-!
Verification development for the Newjilo backend (FastAPI + Supabase).

The Python sources are shallowly embedded:
* pure helper functions (`_determine_severity`, `_get_recommendation`,
  `str.replace`, `str.startswith`) become Lean functions on `ℚ` / `String`;
* each Supabase call is modelled through an `Env` record that fixes the
  outcome of every external dependency (auth provider, object storage,
  table API) for one request, with tables as Lean lists;
* each HTTP handler becomes a function `Env → Option String → … → Resp`,
  where `Resp` records the status code, the JSON body, and the list of
  external calls the handler performed before responding.

Float confidences are modelled as rationals (`mkRat`), so the threshold
comparisons of the source are exact.
-/

/-- JSON values, used for response bodies. -/
inductive JVal where
  | null
  | bool (b : Bool)
  | num (q : ℚ)
  | str (s : String)
  | arr (xs : List JVal)
  | obj (fields : List (String × JVal))

/-- A JSON object body: ordered key/value pairs. -/
abbrev JBody := List (String × JVal)

/-- External calls a handler can perform (adapter calls, inference,
storage upload, table operations). -/
inductive Eff where
  | authCall
  | storageUpload
  | tableInsert
  | tableSelect
  | tableUpdate
  | tableDelete
  | inference
deriving DecidableEq, Repr

/-- An HTTP response together with the trace of external calls the
handler made while producing it. -/
structure Resp where
  status : Nat
  body : JBody
  effects : List Eff

/-- Python `s.startswith(pre)`. -/
def pyStartsWith (s pre : String) : Bool :=
  pre.data.isPrefixOf s.data

/-- Python truthiness of a string (`not s` is true exactly for `""`). -/
def pyTruthyStr (s : String) : Bool :=
  !(s == "")

/-- Replace every non-overlapping occurrence of `pat` in `s` by `rep`,
scanning left to right (semantics of Python `str.replace`).  The fuel is
the length of the remaining input, so the recursion is structural and the
kernel can evaluate it. -/
def replaceAllAux (pat rep : List Char) : Nat → List Char → List Char
  | _, [] => []
  | 0, s => s
  | fuel + 1, c :: cs =>
    if pat.isPrefixOf (c :: cs) then
      rep ++ replaceAllAux pat rep fuel (cs.drop (pat.length - 1))
    else
      c :: replaceAllAux pat rep fuel cs

/-- Python `s.replace(pat, rep)` (all occurrences, not only a prefix). -/
def pyReplace (s pat rep : String) : String :=
  ⟨replaceAllAux pat.data rep.data s.data.length s.data⟩

/-- Does `s` contain `pat` as a contiguous substring? -/
def hasSubstr (pat : List Char) : List Char → Bool
  | [] => pat.isEmpty
  | c :: cs => pat.isPrefixOf (c :: cs) || hasSubstr pat cs

/-- Python `s.upper()`. -/
def pyUpper (s : String) : String :=
  ⟨s.data.map Char.toUpper⟩

/-- The bearer-token guard shared by every authenticated endpoint:
`if not authorization or not authorization.startswith("Bearer ")`. -/
def authHeaderOk : Option String → Bool
  | none => false
  | some s => pyTruthyStr s && pyStartsWith s "Bearer "

/-- `authorization.replace("Bearer ", "")`: the token each endpoint
forwards to the auth provider. -/
def bearerToken (s : String) : String :=
  pyReplace s "Bearer " ""

/-- `PneumoniaModelService._determine_severity`. -/
def determine_severity (confidence : ℚ) (is_pneumonia : Bool) : String :=
  if !is_pneumonia then "Normal"
  else if confidence ≥ mkRat 95 100 then "High Confidence - Pneumonia Detected"
  else if confidence ≥ mkRat 80 100 then "Moderate Confidence - Pneumonia Likely"
  else if confidence ≥ mkRat 60 100 then "Low Confidence - Pneumonia Possible"
  else "Very Low Confidence - Unclear"

/-- `PneumoniaModelService._get_recommendation`. -/
def get_recommendation (is_pneumonia : Bool) (confidence : ℚ) : String :=
  if !is_pneumonia then
    if confidence ≥ mkRat 90 100 then
      "X-ray appears normal. Continue regular health monitoring."
    else
      "X-ray appears mostly normal, but confidence is moderate. Consider follow-up if symptoms persist."
  else if confidence ≥ mkRat 90 100 then
    "⚠️ HIGH PRIORITY: Pneumonia detected with high confidence. Immediate medical consultation strongly recommended."
  else if confidence ≥ mkRat 75 100 then
    "⚠️ MODERATE PRIORITY: Pneumonia likely detected. Please consult a healthcare provider soon for proper diagnosis."
  else if confidence ≥ mkRat 60 100 then
    "⚠️ LOW PRIORITY: Possible pneumonia indication. Monitor symptoms and consider medical consultation if condition worsens."
  else
    "Results inconclusive. If experiencing respiratory symptoms, please consult a healthcare provider."

/-- `prediction_label.upper() == 'PNEUMONIA'` from `classify_xray`. -/
def labelIsPneumonia (label : String) : Bool :=
  pyUpper label == "PNEUMONIA"

/-- Severity as a function of the raw (label, confidence) pair. -/
def severityOf (label : String) (confidence : ℚ) : String :=
  determine_severity confidence (labelIsPneumonia label)

/-- C2: pneumonia severity is a pure function of (label, confidence) with
tier thresholds 0.95 / 0.80 / 0.60 when the label is the positive class
and the constant "Normal" otherwise; in particular (PNEUMONIA, 0.96) maps
to the high tier and (NORMAL, 0.50) to "Normal". -/
theorem C2_severity_tiers :
    (∀ (label : String) (c : ℚ), labelIsPneumonia label = false →
      severityOf label c = "Normal")
    ∧ (∀ c : ℚ, c ≥ mkRat 95 100 →
      determine_severity c true = "High Confidence - Pneumonia Detected")
    ∧ (∀ c : ℚ, mkRat 80 100 ≤ c → c < mkRat 95 100 →
      determine_severity c true = "Moderate Confidence - Pneumonia Likely")
    ∧ (∀ c : ℚ, mkRat 60 100 ≤ c → c < mkRat 80 100 →
      determine_severity c true = "Low Confidence - Pneumonia Possible")
    ∧ (∀ c : ℚ, c < mkRat 60 100 →
      determine_severity c true = "Very Low Confidence - Unclear")
    ∧ severityOf "PNEUMONIA" (mkRat 96 100) = "High Confidence - Pneumonia Detected"
    ∧ severityOf "NORMAL" (mkRat 50 100) = "Normal" := by
  refine ⟨?_, ?_, ?_, ?_, ?_, by decide, by decide⟩
  · intro label c h
    simp [severityOf, determine_severity, h]
  · intro c h
    simp [determine_severity, h]
  · intro c h1 h2
    simp [determine_severity, h1, not_le.mpr h2]
  · intro c h1 h2
    have h9 : c < mkRat 95 100 := h2.trans (by norm_num)
    simp [determine_severity, h1, not_le.mpr h2, not_le.mpr h9]
  · intro c h
    have h8 : ¬ (mkRat 80 100 ≤ c) := not_le.mpr (h.trans (by norm_num))
    have h9 : ¬ (mkRat 95 100 ≤ c) := not_le.mpr (h.trans (by norm_num))
    simp [determine_severity, not_le.mpr h, h8, h9]

theorem C2_severity_tiers_witness :
    (labelIsPneumonia "NORMAL" = false ∧ severityOf "NORMAL" (mkRat 1 2) = "Normal")
    ∧ ((mkRat 97 100 ≥ mkRat 95 100)
        ∧ determine_severity (mkRat 97 100) true = "High Confidence - Pneumonia Detected")
    ∧ ((mkRat 80 100 ≤ mkRat 85 100) ∧ (mkRat 85 100 < mkRat 95 100)
        ∧ determine_severity (mkRat 85 100) true = "Moderate Confidence - Pneumonia Likely")
    ∧ ((mkRat 60 100 ≤ mkRat 65 100) ∧ (mkRat 65 100 < mkRat 80 100)
        ∧ determine_severity (mkRat 65 100) true = "Low Confidence - Pneumonia Possible")
    ∧ ((mkRat 10 100 < mkRat 60 100)
        ∧ determine_severity (mkRat 10 100) true = "Very Low Confidence - Unclear") :=
  ⟨⟨by decide, C2_severity_tiers.1 "NORMAL" (mkRat 1 2) (by decide)⟩,
   ⟨by decide, C2_severity_tiers.2.1 (mkRat 97 100) (by decide)⟩,
   ⟨by decide, by decide, C2_severity_tiers.2.2.1 (mkRat 85 100) (by decide) (by decide)⟩,
   ⟨by decide, by decide, C2_severity_tiers.2.2.2.1 (mkRat 65 100) (by decide) (by decide)⟩,
   ⟨by decide, C2_severity_tiers.2.2.2.2.1 (mkRat 10 100) (by decide)⟩⟩

/-- C3 counterexample: 0.89 and 0.91 lie strictly inside the same severity
tier (0.80 ≤ c < 0.95), yet the recommendation text differs between them,
so the recommendation branch does not change exactly at the severity
boundaries 0.95 / 0.80 / 0.60 — it changes at 0.90. -/
theorem C3_recommendation_cex :
    determine_severity (mkRat 89 100) true = determine_severity (mkRat 91 100) true
    ∧ get_recommendation true (mkRat 89 100) ≠ get_recommendation true (mkRat 91 100)
    ∧ mkRat 80 100 ≤ mkRat 89 100 ∧ (mkRat 91 100 : ℚ) < mkRat 95 100 := by
  refine ⟨by decide, by decide, by decide, by decide⟩

/-- C3 amended: the recommendation text is a deterministic function of
(label, confidence), but its branch boundaries are 0.90 / 0.75 / 0.60 for
the positive label and 0.90 for the negative one, not the severity
boundaries 0.95 / 0.80 / 0.60. -/
theorem C3_recommendation_thresholds :
    (∀ c : ℚ, c ≥ mkRat 90 100 →
      get_recommendation true c =
        "⚠️ HIGH PRIORITY: Pneumonia detected with high confidence. Immediate medical consultation strongly recommended.")
    ∧ (∀ c : ℚ, mkRat 75 100 ≤ c → c < mkRat 90 100 →
      get_recommendation true c =
        "⚠️ MODERATE PRIORITY: Pneumonia likely detected. Please consult a healthcare provider soon for proper diagnosis.")
    ∧ (∀ c : ℚ, mkRat 60 100 ≤ c → c < mkRat 75 100 →
      get_recommendation true c =
        "⚠️ LOW PRIORITY: Possible pneumonia indication. Monitor symptoms and consider medical consultation if condition worsens.")
    ∧ (∀ c : ℚ, c < mkRat 60 100 →
      get_recommendation true c =
        "Results inconclusive. If experiencing respiratory symptoms, please consult a healthcare provider.")
    ∧ (∀ c : ℚ, c ≥ mkRat 90 100 →
      get_recommendation false c =
        "X-ray appears normal. Continue regular health monitoring.")
    ∧ (∀ c : ℚ, c < mkRat 90 100 →
      get_recommendation false c =
        "X-ray appears mostly normal, but confidence is moderate. Consider follow-up if symptoms persist.") := by
  refine ⟨?_, ?_, ?_, ?_, ?_, ?_⟩
  · intro c h
    simp [get_recommendation, h]
  · intro c h1 h2
    simp [get_recommendation, h1, not_le.mpr h2]
  · intro c h1 h2
    have h9 : c < mkRat 90 100 := h2.trans (by norm_num)
    simp [get_recommendation, h1, not_le.mpr h2, not_le.mpr h9]
  · intro c h
    have h7 : ¬ (mkRat 75 100 ≤ c) := not_le.mpr (h.trans (by norm_num))
    have h9 : ¬ (mkRat 90 100 ≤ c) := not_le.mpr (h.trans (by norm_num))
    simp [get_recommendation, not_le.mpr h, h7, h9]
  · intro c h
    simp [get_recommendation, h]
  · intro c h
    simp [get_recommendation, not_le.mpr h]

theorem C3_recommendation_thresholds_witness :
    ((mkRat 91 100 ≥ mkRat 90 100)
      ∧ get_recommendation true (mkRat 91 100) =
        "⚠️ HIGH PRIORITY: Pneumonia detected with high confidence. Immediate medical consultation strongly recommended.")
    ∧ ((mkRat 75 100 ≤ mkRat 80 100) ∧ (mkRat 80 100 < mkRat 90 100)
      ∧ get_recommendation true (mkRat 80 100) =
        "⚠️ MODERATE PRIORITY: Pneumonia likely detected. Please consult a healthcare provider soon for proper diagnosis.")
    ∧ ((mkRat 60 100 ≤ mkRat 70 100) ∧ (mkRat 70 100 < mkRat 75 100)
      ∧ get_recommendation true (mkRat 70 100) =
        "⚠️ LOW PRIORITY: Possible pneumonia indication. Monitor symptoms and consider medical consultation if condition worsens.")
    ∧ ((mkRat 50 100 < mkRat 60 100)
      ∧ get_recommendation true (mkRat 50 100) =
        "Results inconclusive. If experiencing respiratory symptoms, please consult a healthcare provider.")
    ∧ ((mkRat 95 100 ≥ mkRat 90 100)
      ∧ get_recommendation false (mkRat 95 100) =
        "X-ray appears normal. Continue regular health monitoring.")
    ∧ ((mkRat 50 100 < mkRat 90 100)
      ∧ get_recommendation false (mkRat 50 100) =
        "X-ray appears mostly normal, but confidence is moderate. Consider follow-up if symptoms persist.") :=
  ⟨⟨by decide, C3_recommendation_thresholds.1 (mkRat 91 100) (by decide)⟩,
   ⟨by decide, by decide, C3_recommendation_thresholds.2.1 (mkRat 80 100) (by decide) (by decide)⟩,
   ⟨by decide, by decide, C3_recommendation_thresholds.2.2.1 (mkRat 70 100) (by decide) (by decide)⟩,
   ⟨by decide, C3_recommendation_thresholds.2.2.2.1 (mkRat 50 100) (by decide)⟩,
   ⟨by decide, C3_recommendation_thresholds.2.2.2.2.1 (mkRat 95 100) (by decide)⟩,
   ⟨by decide, C3_recommendation_thresholds.2.2.2.2.2 (mkRat 50 100) (by decide)⟩⟩

/-- If `pat` never occurs as a substring of `s`, replacement leaves `s`
unchanged (for any sufficient fuel). -/
theorem replaceAllAux_of_not_hasSubstr (pat rep : List Char) :
    ∀ (s : List Char), hasSubstr pat s = false →
      ∀ fuel, s.length ≤ fuel → replaceAllAux pat rep fuel s = s := by
  intro s
  induction s with
  | nil => intro _ fuel _; cases fuel <;> rfl
  | cons c cs ih =>
    intro hs fuel hf
    cases fuel with
    | zero => simp at hf
    | succ f =>
      rw [hasSubstr, Bool.or_eq_false_iff] at hs
      simp only [replaceAllAux, hs.1, if_false, Bool.false_eq_true]
      have hlen : cs.length ≤ f := by
        simpa using Nat.le_of_succ_le_succ hf
      rw [ih hs.2 f hlen]

/-- A list is a `isPrefixOf` of itself followed by anything. -/
theorem isPrefixOf_append_self (p t : List Char) : p.isPrefixOf (p ++ t) = true := by
  induction p with
  | nil => cases t <;> rfl
  | cons a as ih => simp [List.isPrefixOf, ih]

/-- C10: every bearer endpoint forwards
`authorization.replace("Bearer ", "")`, which removes every occurrence of
the substring "Bearer ", not only the leading prefix: a header
`"Bearer " ++ t` forwards exactly `t` when `t` does not itself contain
"Bearer ", but some token containing "Bearer " is mangled. -/
theorem C10_bearer_replace_all_occurrences :
    (∀ t : String, hasSubstr "Bearer ".data t.data = false →
      bearerToken ("Bearer " ++ t) = t)
    ∧ (∃ t : String, hasSubstr "Bearer ".data t.data = true ∧
      bearerToken ("Bearer " ++ t) ≠ t) := by
  constructor
  · intro t ht
    obtain ⟨d⟩ := t
    simp only [String.data] at ht
    have hrw : bearerToken ("Bearer " ++ String.mk d)
        = String.mk (replaceAllAux "Bearer ".data [] (d.length + 6) d) := by
      simp [bearerToken, pyReplace, replaceAllAux, List.isPrefixOf]
    rw [hrw]
    exact congrArg String.mk
      (replaceAllAux_of_not_hasSubstr _ _ d ht (d.length + 6) (by omega))
  · exact ⟨"xBearer y", by decide, by decide⟩

theorem C10_bearer_replace_all_occurrences_witness :
    hasSubstr "Bearer ".data "tok123".data = false
    ∧ bearerToken ("Bearer " ++ "tok123") = "tok123" :=
  ⟨by decide, C10_bearer_replace_all_occurrences.1 "tok123" (by decide)⟩

/-- A user identity resolved by the auth provider. -/
structure User where
  id : String
  email : String
  full_name : String
deriving DecidableEq, Repr

/-- A row of the `health_records` table.  The `date` column is an
externally stored, order-comparable value, modelled as `Nat`. -/
structure HealthRecord where
  id : Nat
  user_id : String
  title : String
  description : String
  category : String
  date : Nat
deriving DecidableEq, Repr

/-- A row of an analysis table (`vision_analysis` / `pneumonia_analyses`):
the columns the service filters and orders on. -/
structure AnalysisRow where
  id : Nat
  user_id : String
  created_at : Nat
deriving DecidableEq, Repr

/-- The server-assigned part of a freshly inserted row, as returned by
`insert(...).execute().data[0]`. -/
structure InsertedRow where
  id : Nat
  created_at : Nat
deriving DecidableEq, Repr

/-- One entry of the classification pipeline output. -/
structure LabelScore where
  label : String
  score : ℚ
deriving DecidableEq, Repr

/-- The dict returned by `PneumoniaModelService.classify_xray`. -/
structure Classification where
  prediction : String
  confidence : ℚ
  confidence_percentage : ℚ
  is_pneumonia : Bool
  severity : String
  recommendation : String
  all_predictions : List LabelScore
  processing_time : ℚ
  model : String
deriving DecidableEq, Repr

/-- The outcome of every external dependency for one request: the auth
provider, the current table contents, the storage upload, each table
insert, and the state/output of each loaded model pipeline. -/
structure Env where
  resolveUser : String → Option User
  healthTable : List HealthRecord
  visionTable : List AnalysisRow
  pneumoniaTable : List AnalysisRow
  uploadOutcome : Except String String
  healthInsertId : Except String Nat
  visionInsert : Except String InsertedRow
  pneumoniaInsert : Except String InsertedRow
  mnistInsert : Except String InsertedRow
  clipInsert : Except String InsertedRow
  autoglmInsert : Except String InsertedRow
  signOutOutcome : Except String Unit
  visionLoaded : Bool
  visionStatusStr : String
  visionProgress : Nat
  visionLoadRetry : Bool
  visionText : Except String String
  pneumoniaLoaded : Bool
  pneumoniaStatusStr : String
  pneumoniaProgress : Nat
  pipeResults : List LabelScore
  mnistLogits : Fin 10 → ℚ
  expFn : ℚ → ℚ
  clipLoaded : Bool
  clipStatusStr : String
  clipProgress : Nat
  clipScore : ℚ
  autoglmCaption : Except String (Option String)

/-- Round to `d` decimal places (Python `round(q, d)`; the Python
tie-breaking rule is round-half-to-even, which no claim exercises). -/
def roundTo (q : ℚ) (d : Nat) : ℚ :=
  ((round (q * 10 ^ d) : ℤ) : ℚ) / 10 ^ d

def pneumoniaModelName : String := "nickmuchi/vit-finetuned-chest-xray-pneumonia"

def visionModelName : String := "Salesforce/blip-image-captioning-large"

/-- `sorted(results, key=lambda x: x['score'], reverse=True)`. -/
def sortByScoreDesc (l : List LabelScore) : List LabelScore :=
  l.insertionSort (fun a b => b.score ≤ a.score)

/-- `.order("date", desc=True)` on health records. -/
def sortByDateDesc (l : List HealthRecord) : List HealthRecord :=
  l.insertionSort (fun a b => b.date ≤ a.date)

/-- `.order("created_at", desc=True)` on analysis rows. -/
def sortByCreatedDesc (l : List AnalysisRow) : List AnalysisRow :=
  l.insertionSort (fun a b => b.created_at ≤ a.created_at)

/-- `PneumoniaModelService.classify_xray`: control flow and result dict,
with the pipeline output supplied by the environment.  Wall-clock
processing time is modelled as 0. -/
def classify_xray (env : Env) : Except String Classification :=
  if !env.pneumoniaLoaded then
    .error ("Pneumonia model not loaded. Status: " ++ env.pneumoniaStatusStr)
  else
    match env.pipeResults with
    | [] => .error "Failed to classify X-ray: No classification results returned"
    | top :: rest =>
      let confidence := top.score
      let is_pneumonia := labelIsPneumonia top.label
      .ok {
        prediction := top.label
        confidence := roundTo confidence 4
        confidence_percentage := roundTo (confidence * 100) 2
        is_pneumonia := is_pneumonia
        severity := determine_severity confidence is_pneumonia
        recommendation := get_recommendation is_pneumonia confidence
        all_predictions := (sortByScoreDesc (top :: rest)).map
          (fun p => ⟨p.label, roundTo p.score 4⟩)
        processing_time := 0
        model := pneumoniaModelName }

/-- `torch.softmax(logits, dim=1)` entrywise, with the exponential map a
parameter of the environment. -/
def softmax (E : ℚ → ℚ) (l : Fin 10 → ℚ) (i : Fin 10) : ℚ :=
  E (l i) / ∑ j, E (l j)

/-- `np.argmax`: index of the first occurrence of the maximum. -/
def argmaxAux : Nat → Nat → ℚ → List ℚ → Nat
  | _, best, _, [] => best
  | i, best, bv, x :: xs =>
    if bv < x then argmaxAux (i + 1) i x xs else argmaxAux (i + 1) best bv xs

def argmax : List ℚ → Nat
  | [] => 0
  | x :: xs => argmaxAux 1 0 x xs

namespace SupabaseService

/-- `SupabaseService.get_user`: token resolution; provider errors and
rejections both yield `none`. -/
def get_user (env : Env) (access_token : String) : Option User :=
  env.resolveUser access_token

/-- `upload_image` (bucket `health-images`): row-content parameters do not
affect control flow and are omitted; the public URL or the provider error
is environment-assigned. -/
def upload_image (env : Env) (access_token : String) :
    Except String String × List Eff :=
  match get_user env access_token with
  | none => (.error "Invalid token", [.authCall])
  | some _ =>
    match env.uploadOutcome with
    | .ok url => (.ok url, [.authCall, .storageUpload])
    | .error e => (.error e, [.authCall, .storageUpload])

/-- `upload_pneumonia_image` (bucket `pneumonia_images`): same shape as
`upload_image`. -/
def upload_pneumonia_image (env : Env) (access_token : String) :
    Except String String × List Eff :=
  match get_user env access_token with
  | none => (.error "Invalid token", [.authCall])
  | some _ =>
    match env.uploadOutcome with
    | .ok url => (.ok url, [.authCall, .storageUpload])
    | .error e => (.error e, [.authCall, .storageUpload])

/-- `upload_mnist_image` (bucket `mnist_images`): same shape as
`upload_image`. -/
def upload_mnist_image (env : Env) (access_token : String) :
    Except String String × List Eff :=
  match get_user env access_token with
  | none => (.error "Invalid token", [.authCall])
  | some _ =>
    match env.uploadOutcome with
    | .ok url => (.ok url, [.authCall, .storageUpload])
    | .error e => (.error e, [.authCall, .storageUpload])

/-- `create_health_record`: inserts a row carrying the resolved user id
and the request fields; the id is server-assigned. -/
def create_health_record (env : Env) (access_token : String)
    (title description category : String) (date : Nat) :
    Except String HealthRecord × List Eff :=
  match get_user env access_token with
  | none => (.error "Invalid token", [.authCall])
  | some u =>
    match env.healthInsertId with
    | .ok n => (.ok ⟨n, u.id, title, description, category, date⟩, [.authCall, .tableInsert])
    | .error e => (.error e, [.authCall, .tableInsert])

/-- `get_health_records`: `.eq("user_id", uid).order("date", desc=True)`. -/
def get_health_records (env : Env) (access_token : String) :
    Except String (List HealthRecord) × List Eff :=
  match get_user env access_token with
  | none => (.error "Invalid token", [.authCall])
  | some u =>
    (.ok (sortByDateDesc (env.healthTable.filter (fun r => r.user_id == u.id))),
     [.authCall, .tableSelect])

/-- `get_health_record`: `.eq("id", rid).eq("user_id", uid).single()`;
`single()` raises unless exactly one row matches. -/
def get_health_record (env : Env) (access_token : String) (record_id : Nat) :
    Except String HealthRecord × List Eff :=
  match get_user env access_token with
  | none => (.error "Invalid token", [.authCall])
  | some u =>
    match env.healthTable.filter (fun r => r.id == record_id && r.user_id == u.id) with
    | [r] => (.ok r, [.authCall, .tableSelect])
    | _ => (.error "JSON object requested, multiple (or no) rows returned",
            [.authCall, .tableSelect])

/-- `update_health_record`: `.update(data).eq("id", rid).eq("user_id", uid)`;
returns `response.data[0] if response.data else None` and the table after
the update. -/
def update_health_record (env : Env) (access_token : String) (record_id : Nat)
    (title description category : String) (date : Nat) :
    Except String (Option HealthRecord) × List HealthRecord × List Eff :=
  match get_user env access_token with
  | none => (.error "Invalid token", env.healthTable, [.authCall])
  | some u =>
    let touched := (env.healthTable.filter
        (fun r => r.id == record_id && r.user_id == u.id)).map
      (fun r => { r with title := title, description := description,
                         category := category, date := date })
    (.ok touched.head?,
     env.healthTable.map (fun r =>
       if r.id == record_id && r.user_id == u.id then
         { r with title := title, description := description,
                  category := category, date := date }
       else r),
     [.authCall, .tableUpdate])

/-- `delete_health_record`: `.delete().eq("id", rid).eq("user_id", uid)`;
always reports success, whether or not any row matched. -/
def delete_health_record (env : Env) (access_token : String) (record_id : Nat) :
    Except String String × List HealthRecord × List Eff :=
  match get_user env access_token with
  | none => (.error "Invalid token", env.healthTable, [.authCall])
  | some u =>
    (.ok "Health record deleted successfully",
     env.healthTable.filter (fun r => !(r.id == record_id && r.user_id == u.id)),
     [.authCall, .tableDelete])

/-- `create_vision_analysis`. -/
def create_vision_analysis (env : Env) (access_token : String) :
    Except String InsertedRow × List Eff :=
  match get_user env access_token with
  | none => (.error "Invalid token", [.authCall])
  | some _ =>
    match env.visionInsert with
    | .ok r => (.ok r, [.authCall, .tableInsert])
    | .error e => (.error e, [.authCall, .tableInsert])

/-- `get_vision_analyses`: `.eq("user_id", uid).order("created_at", desc=True)`. -/
def get_vision_analyses (env : Env) (access_token : String) :
    Except String (List AnalysisRow) × List Eff :=
  match get_user env access_token with
  | none => (.error "Invalid token", [.authCall])
  | some u =>
    (.ok (sortByCreatedDesc (env.visionTable.filter (fun r => r.user_id == u.id))),
     [.authCall, .tableSelect])

/-- `get_vision_analysis` (`.single()`). -/
def get_vision_analysis (env : Env) (access_token : String) (analysis_id : Nat) :
    Except String AnalysisRow × List Eff :=
  match get_user env access_token with
  | none => (.error "Invalid token", [.authCall])
  | some u =>
    match env.visionTable.filter (fun r => r.id == analysis_id && r.user_id == u.id) with
    | [r] => (.ok r, [.authCall, .tableSelect])
    | _ => (.error "JSON object requested, multiple (or no) rows returned",
            [.authCall, .tableSelect])

/-- `delete_vision_analysis`. -/
def delete_vision_analysis (env : Env) (access_token : String) (analysis_id : Nat) :
    Except String String × List AnalysisRow × List Eff :=
  match get_user env access_token with
  | none => (.error "Invalid token", env.visionTable, [.authCall])
  | some u =>
    (.ok "Vision analysis deleted successfully",
     env.visionTable.filter (fun r => !(r.id == analysis_id && r.user_id == u.id)),
     [.authCall, .tableDelete])

/-- `create_pneumonia_analysis`. -/
def create_pneumonia_analysis (env : Env) (access_token : String) :
    Except String InsertedRow × List Eff :=
  match get_user env access_token with
  | none => (.error "Invalid token", [.authCall])
  | some _ =>
    match env.pneumoniaInsert with
    | .ok r => (.ok r, [.authCall, .tableInsert])
    | .error e => (.error e, [.authCall, .tableInsert])

/-- `get_pneumonia_analyses`: `.eq("user_id", uid).order("created_at", desc=True)`. -/
def get_pneumonia_analyses (env : Env) (access_token : String) :
    Except String (List AnalysisRow) × List Eff :=
  match get_user env access_token with
  | none => (.error "Invalid token", [.authCall])
  | some u =>
    (.ok (sortByCreatedDesc (env.pneumoniaTable.filter (fun r => r.user_id == u.id))),
     [.authCall, .tableSelect])

/-- `get_pneumonia_analysis` (`.single()`). -/
def get_pneumonia_analysis (env : Env) (access_token : String) (analysis_id : Nat) :
    Except String AnalysisRow × List Eff :=
  match get_user env access_token with
  | none => (.error "Invalid token", [.authCall])
  | some u =>
    match env.pneumoniaTable.filter (fun r => r.id == analysis_id && r.user_id == u.id) with
    | [r] => (.ok r, [.authCall, .tableSelect])
    | _ => (.error "JSON object requested, multiple (or no) rows returned",
            [.authCall, .tableSelect])

/-- `delete_pneumonia_analysis`. -/
def delete_pneumonia_analysis (env : Env) (access_token : String) (analysis_id : Nat) :
    Except String String × List AnalysisRow × List Eff :=
  match get_user env access_token with
  | none => (.error "Invalid token", env.pneumoniaTable, [.authCall])
  | some u =>
    (.ok "Pneumonia analysis deleted successfully",
     env.pneumoniaTable.filter (fun r => !(r.id == analysis_id && r.user_id == u.id)),
     [.authCall, .tableDelete])

/-- `create_mnist_analysis`. -/
def create_mnist_analysis (env : Env) (access_token : String) :
    Except String InsertedRow × List Eff :=
  match get_user env access_token with
  | none => (.error "Invalid token", [.authCall])
  | some _ =>
    match env.mnistInsert with
    | .ok r => (.ok r, [.authCall, .tableInsert])
    | .error e => (.error e, [.authCall, .tableInsert])

/-- `create_clip_analysis`. -/
def create_clip_analysis (env : Env) (access_token : String) :
    Except String InsertedRow × List Eff :=
  match get_user env access_token with
  | none => (.error "Invalid token", [.authCall])
  | some _ =>
    match env.clipInsert with
    | .ok r => (.ok r, [.authCall, .tableInsert])
    | .error e => (.error e, [.authCall, .tableInsert])

/-- `create_autoglm_analysis`. -/
def create_autoglm_analysis (env : Env) (access_token : String) :
    Except String InsertedRow × List Eff :=
  match get_user env access_token with
  | none => (.error "Invalid token", [.authCall])
  | some _ =>
    match env.autoglmInsert with
    | .ok r => (.ok r, [.authCall, .tableInsert])
    | .error e => (.error e, [.authCall, .tableInsert])

/-- `sign_out`: delegates to `supabase.auth.sign_out()` (the token
argument is ignored by the source as well). -/
def sign_out (env : Env) (_access_token : String) :
    Except String String × List Eff :=
  match env.signOutOutcome with
  | .ok _ => (.ok "Signed out successfully", [.authCall])
  | .error e => (.error e, [.authCall])

end SupabaseService

/-- The FastAPI 401 raised by the shared bearer guard; no external call
has been made at that point. -/
def resp401 : Resp :=
  ⟨401, [("detail", JVal.str "Missing or invalid authorization header")], []⟩

/-- Python `str(e)` for a FastAPI `HTTPException` caught as a bare
`Exception`: the `(status_code, detail)` argument pair. -/
def httpExnStr (code : Nat) (detail : String) : String :=
  "(" ++ toString code ++ ", '" ++ detail ++ "')"

def userJson (u : User) : JVal :=
  .obj [("id", .str u.id), ("email", .str u.email), ("full_name", .str u.full_name)]

def healthRecordJson (r : HealthRecord) : JVal :=
  .obj [("id", .num r.id), ("user_id", .str r.user_id), ("title", .str r.title),
        ("description", .str r.description), ("category", .str r.category),
        ("date", .num r.date)]

def analysisRowJson (r : AnalysisRow) : JVal :=
  .obj [("id", .num r.id), ("user_id", .str r.user_id), ("created_at", .num r.created_at)]

def insertedRowJson (r : InsertedRow) : JVal :=
  .obj [("id", .num r.id), ("created_at", .num r.created_at)]

def classificationJson (c : Classification) : JVal :=
  .obj [("prediction", .str c.prediction), ("confidence", .num c.confidence),
        ("confidence_percentage", .num c.confidence_percentage),
        ("is_pneumonia", .bool c.is_pneumonia), ("severity", .str c.severity),
        ("recommendation", .str c.recommendation),
        ("all_predictions", .arr (c.all_predictions.map
          (fun p => .obj [("label", .str p.label), ("confidence", .num p.score)]))),
        ("processing_time", .num c.processing_time), ("model", .str c.model)]

/-- `POST /api/records` (`records.create_record`). -/
def create_record (env : Env) (authorization : Option String)
    (title description category : String) (date : Nat) : Resp :=
  if authHeaderOk authorization then
    let token := bearerToken (authorization.getD "")
    match SupabaseService.create_health_record env token title description category date with
    | (.ok r, effs) =>
      ⟨200, [("success", .bool true),
             ("message", .str "Health record created successfully"),
             ("data", healthRecordJson r)], effs⟩
    | (.error e, effs) => ⟨400, [("detail", .str e)], effs⟩
  else resp401

/-- `GET /api/records` (`records.get_records`). -/
def get_records (env : Env) (authorization : Option String) : Resp :=
  if authHeaderOk authorization then
    let token := bearerToken (authorization.getD "")
    match SupabaseService.get_health_records env token with
    | (.ok rows, effs) =>
      ⟨200, [("success", .bool true), ("data", .arr (rows.map healthRecordJson)),
             ("count", .num rows.length)], effs⟩
    | (.error e, effs) => ⟨400, [("detail", .str e)], effs⟩
  else resp401

/-- `GET /api/records/{record_id}` (`records.get_record`). -/
def get_record (env : Env) (authorization : Option String) (record_id : Nat) : Resp :=
  if authHeaderOk authorization then
    let token := bearerToken (authorization.getD "")
    match SupabaseService.get_health_record env token record_id with
    | (.ok r, effs) =>
      ⟨200, [("success", .bool true), ("data", healthRecordJson r)], effs⟩
    | (.error e, effs) => ⟨404, [("detail", .str e)], effs⟩
  else resp401

/-- `PUT /api/records/{record_id}` (`records.update_record`). -/
def update_record (env : Env) (authorization : Option String) (record_id : Nat)
    (title description category : String) (date : Nat) : Resp :=
  if authHeaderOk authorization then
    let token := bearerToken (authorization.getD "")
    match SupabaseService.update_health_record env token record_id title description category date with
    | (.ok data?, _, effs) =>
      ⟨200, [("success", .bool true),
             ("message", .str "Health record updated successfully"),
             ("data", match data? with
                      | some r => healthRecordJson r
                      | none => JVal.null)], effs⟩
    | (.error e, _, effs) => ⟨400, [("detail", .str e)], effs⟩
  else resp401

/-- `DELETE /api/records/{record_id}` (`records.delete_record`). -/
def delete_record (env : Env) (authorization : Option String) (record_id : Nat) : Resp :=
  if authHeaderOk authorization then
    let token := bearerToken (authorization.getD "")
    match SupabaseService.delete_health_record env token record_id with
    | (.ok msg, _, effs) =>
      ⟨200, [("success", .bool true), ("message", .str msg)], effs⟩
    | (.error e, _, effs) => ⟨400, [("detail", .str e)], effs⟩
  else resp401

/-- `POST /api/auth/logout` (`auth.logout`). -/
def logout (env : Env) (authorization : Option String) : Resp :=
  if authHeaderOk authorization then
    let token := bearerToken (authorization.getD "")
    match SupabaseService.sign_out env token with
    | (.ok _, effs) =>
      ⟨200, [("success", .bool true), ("message", .str "Logged out successfully")], effs⟩
    | (.error e, effs) => ⟨400, [("detail", .str e)], effs⟩
  else resp401

/-- `GET /api/auth/user` (`auth.get_user`). -/
def get_user (env : Env) (authorization : Option String) : Resp :=
  if authHeaderOk authorization then
    let token := bearerToken (authorization.getD "")
    match SupabaseService.get_user env token with
    | some u => ⟨200, [("success", .bool true), ("data", userJson u)], [.authCall]⟩
    | none => ⟨401, [("detail", .str "Invalid or expired token")], [.authCall]⟩
  else resp401

/-- `POST /api/vision/analyze` (`vision.analyze_image`).  The handler's
`try` block has no `except HTTPException: raise` clause, so every
`HTTPException` raised inside it (including its own 400 and 503) is caught
by `except Exception` and re-raised as a 500. -/
def analyze_image (env : Env) (authorization : Option String) : Resp :=
  if authHeaderOk authorization then
    let token := bearerToken (authorization.getD "")
    match SupabaseService.upload_image env token with
    | (.error e, effs) =>
      ⟨500, [("detail", .str ("Failed to analyze image: "
          ++ httpExnStr 400 ("Failed to upload image: " ++ e)))], effs⟩
    | (.ok _, effs) =>
      if !env.visionLoaded && !env.visionLoadRetry then
        ⟨500, [("detail", .str ("Failed to analyze image: "
            ++ httpExnStr 503 "Vision model not available. Please try again later."))], effs⟩
      else
        match env.visionText with
        | .error e =>
          ⟨500, [("detail", .str ("Failed to analyze image: Failed to generate description: " ++ e))],
           effs ++ [.inference]⟩
        | .ok _ =>
          match SupabaseService.create_vision_analysis env token with
          | (.ok row, effs2) =>
            ⟨200, [("success", .bool true),
                   ("message", .str "Image analyzed successfully"),
                   ("data", insertedRowJson row)], effs ++ [.inference] ++ effs2⟩
          | (.error e, effs2) =>
            ⟨500, [("detail", .str ("Failed to analyze image: " ++ httpExnStr 400 e))],
             effs ++ [.inference] ++ effs2⟩
  else resp401

/-- `GET /api/vision/history` (`vision.get_analysis_history`). -/
def get_analysis_history (env : Env) (authorization : Option String) : Resp :=
  if authHeaderOk authorization then
    let token := bearerToken (authorization.getD "")
    match SupabaseService.get_vision_analyses env token with
    | (.ok rows, effs) =>
      ⟨200, [("success", .bool true), ("data", .arr (rows.map analysisRowJson)),
             ("count", .num rows.length)], effs⟩
    | (.error e, effs) => ⟨400, [("detail", .str e)], effs⟩
  else resp401

/-- `GET /api/vision/analyze/{analysis_id}` (`vision.get_analysis`). -/
def get_analysis (env : Env) (authorization : Option String) (analysis_id : Nat) : Resp :=
  if authHeaderOk authorization then
    let token := bearerToken (authorization.getD "")
    match SupabaseService.get_vision_analysis env token analysis_id with
    | (.ok r, effs) => ⟨200, [("success", .bool true), ("data", analysisRowJson r)], effs⟩
    | (.error e, effs) => ⟨404, [("detail", .str e)], effs⟩
  else resp401

/-- `DELETE /api/vision/analyze/{analysis_id}` (`vision.delete_analysis`). -/
def delete_analysis (env : Env) (authorization : Option String) (analysis_id : Nat) : Resp :=
  if authHeaderOk authorization then
    let token := bearerToken (authorization.getD "")
    match SupabaseService.delete_vision_analysis env token analysis_id with
    | (.ok msg, _, effs) => ⟨200, [("success", .bool true), ("message", .str msg)], effs⟩
    | (.error e, _, effs) => ⟨400, [("detail", .str e)], effs⟩
  else resp401

/-- `GET /api/vision/status` (`vision.get_vision_status`). -/
def get_vision_status (env : Env) : Resp :=
  ⟨200, [("success", .bool true), ("model_loaded", .bool env.visionLoaded),
         ("status", .str env.visionStatusStr), ("progress", .num env.visionProgress),
         ("model_name", if env.visionLoaded then .str visionModelName else JVal.null)], []⟩

/-- `GET /api/pneumonia/status` (`pneumonia.get_pneumonia_status`). -/
def get_pneumonia_status (env : Env) : Resp :=
  ⟨200, [("success", .bool true),
         ("model", .str "Pneumonia Detection (Chest X-ray)"),
         ("status", .obj [("loaded", .bool env.pneumoniaLoaded),
                          ("status", .str env.pneumoniaStatusStr),
                          ("progress", .num env.pneumoniaProgress),
                          ("model_name", .str pneumoniaModelName)])], []⟩

/-- `POST /api/pneumonia/analyze` (`pneumonia.analyze_xray`).  This
handler does have `except HTTPException: raise`, so its 400/503 pass
through; a failed table insert is only logged ("⚠️  Warning") and the
endpoint still answers 200 with `success: true` and a null
`analysis_id`. -/
def analyze_xray (env : Env) (authorization : Option String) (imageLen : Nat) : Resp :=
  if authHeaderOk authorization then
    let token := bearerToken (authorization.getD "")
    if imageLen == 0 then
      ⟨400, [("detail", .str "Empty image file")], []⟩
    else if !env.pneumoniaLoaded then
      ⟨503, [("detail", .str ("Pneumonia model not ready: " ++ env.pneumoniaStatusStr
          ++ " (" ++ toString env.pneumoniaProgress ++ "%)"))], []⟩
    else
      match SupabaseService.upload_pneumonia_image env token with
      | (.error e, effs) =>
        ⟨400, [("detail", .str ("Failed to upload image: " ++ e))], effs⟩
      | (.ok url, effs) =>
        match classify_xray env with
        | .error e =>
          ⟨500, [("detail", .str ("Failed to analyze X-ray: " ++ e))], effs ++ [.inference]⟩
        | .ok c =>
          match SupabaseService.create_pneumonia_analysis env token with
          | (.ok row, effs2) =>
            ⟨200, [("success", .bool true),
                   ("message", .str "Chest X-ray analyzed successfully"),
                   ("data", .obj [("image_url", .str url),
                                  ("classification", classificationJson c),
                                  ("analysis_id", .num row.id),
                                  ("created_at", .num row.created_at)])],
             effs ++ [.inference] ++ effs2⟩
          | (.error _, effs2) =>
            ⟨200, [("success", .bool true),
                   ("message", .str "Chest X-ray analyzed successfully"),
                   ("data", .obj [("image_url", .str url),
                                  ("classification", classificationJson c),
                                  ("analysis_id", JVal.null),
                                  ("created_at", JVal.null)])],
             effs ++ [.inference] ++ effs2⟩
  else resp401

/-- `GET /api/pneumonia/history` (`pneumonia.get_pneumonia_history`). -/
def get_pneumonia_history (env : Env) (authorization : Option String) : Resp :=
  if authHeaderOk authorization then
    let token := bearerToken (authorization.getD "")
    match SupabaseService.get_pneumonia_analyses env token with
    | (.ok rows, effs) =>
      ⟨200, [("success", .bool true), ("data", .arr (rows.map analysisRowJson)),
             ("count", .num rows.length)], effs⟩
    | (.error e, effs) => ⟨400, [("detail", .str e)], effs⟩
  else resp401

/-- `GET /api/pneumonia/analyze/{analysis_id}` (`pneumonia.get_pneumonia_analysis`). -/
def get_pneumonia_analysis (env : Env) (authorization : Option String) (analysis_id : Nat) : Resp :=
  if authHeaderOk authorization then
    let token := bearerToken (authorization.getD "")
    match SupabaseService.get_pneumonia_analysis env token analysis_id with
    | (.ok r, effs) => ⟨200, [("success", .bool true), ("data", analysisRowJson r)], effs⟩
    | (.error e, effs) => ⟨404, [("detail", .str e)], effs⟩
  else resp401

/-- `DELETE /api/pneumonia/analyze/{analysis_id}` (`pneumonia.delete_pneumonia_analysis`). -/
def delete_pneumonia_analysis (env : Env) (authorization : Option String) (analysis_id : Nat) : Resp :=
  if authHeaderOk authorization then
    let token := bearerToken (authorization.getD "")
    match SupabaseService.delete_pneumonia_analysis env token analysis_id with
    | (.ok msg, _, effs) => ⟨200, [("success", .bool true), ("message", .str msg)], effs⟩
    | (.error e, _, effs) => ⟨400, [("detail", .str e)], effs⟩
  else resp401

/-- `POST /api/mnist/infer` (`mnist_api.mnist_infer`): softmax over the
model logits, `np.argmax` prediction, then upload and insert; a failed
insert is reflected only as a null `analysis_id`. -/
def mnist_infer (env : Env) (authorization : Option String) (_filename : String) : Resp :=
  if authHeaderOk authorization then
    let token := bearerToken (authorization.getD "")
    let probs := List.ofFn (softmax env.expFn env.mnistLogits)
    let pred := argmax probs
    match SupabaseService.upload_mnist_image env token with
    | (.error e, effs) =>
      ⟨400, [("detail", .str ("Image upload failed: " ++ e))], [.inference] ++ effs⟩
    | (.ok url, effs) =>
      match SupabaseService.create_mnist_analysis env token with
      | (db, effs2) =>
        ⟨200, [("success", .bool true), ("prediction", .num pred),
               ("probabilities", .arr (probs.map JVal.num)),
               ("image_url", .str url),
               ("analysis_id", match db with
                               | .ok row => .num row.id
                               | .error _ => JVal.null)],
         [.inference] ++ effs ++ effs2⟩
  else resp401

/-- `GET /api/clip/status` (`clip_api.clip_model_status`): returns the
loading-status dict of `CLIPModelService.get_loading_status` as-is. -/
def clip_model_status (env : Env) : Resp :=
  ⟨200, [("loaded", .bool env.clipLoaded), ("status", .str env.clipStatusStr),
         ("progress", .num env.clipProgress)], []⟩

/-- `POST /api/clip/similarity` (`clip_api.clip_similarity`). -/
def clip_similarity (env : Env) (authorization : Option String)
    (text filename : String) : Resp :=
  if authHeaderOk authorization then
    let token := bearerToken (authorization.getD "")
    if !env.clipLoaded then
      ⟨500, [("detail", .str "CLIP similarity failed: model not available")], []⟩
    else
      match SupabaseService.upload_image env token with
      | (.error e, effs) =>
        ⟨400, [("detail", .str ("Image upload failed: " ++ e))], [.inference] ++ effs⟩
      | (.ok url, effs) =>
        match SupabaseService.create_clip_analysis env token with
        | (db, effs2) =>
          ⟨200, [("success", .bool true), ("similarity_score", .num env.clipScore),
                 ("text", .str text), ("filename", .str filename),
                 ("image_url", .str url),
                 ("analysis_id", match db with
                                 | .ok row => .num row.id
                                 | .error _ => JVal.null)],
           [.inference] ++ effs ++ effs2⟩
  else resp401

/-- `POST /api/autoglm/infer` (`autoglm_api.autoglm_infer`). -/
def autoglm_infer (env : Env) (authorization : Option String)
    (image_url : String) : Resp :=
  if authHeaderOk authorization then
    let token := bearerToken (authorization.getD "")
    match env.autoglmCaption with
    | .error e => ⟨500, [("detail", .str ("Inference failed: " ++ e))], [.inference]⟩
    | .ok caption? =>
      match SupabaseService.create_autoglm_analysis env token with
      | (db, effs2) =>
        ⟨200, [("success", .bool true),
               ("caption", match caption? with
                           | some c => .str c
                           | none => JVal.null),
               ("image_url", .str image_url),
               ("analysis_id", match db with
                               | .ok row => .num row.id
                               | .error _ => JVal.null)],
         [.inference] ++ effs2⟩
  else resp401

/-- `GET /api/autoglm/status` (`autoglm_api.autoglm_status`): returns
`AutoGLMModelService.get_loading_status` as-is (its `model_loaded` is set
unconditionally at startup). -/
def autoglm_status : Resp :=
  ⟨200, [("loaded", .bool true),
         ("model_name", .str "Salesforce/blip-image-captioning-base")], []⟩

/-- A concrete environment used to instantiate theorems: token "tok"
resolves to a user, every external call succeeds, every model is
loaded. -/
def baseEnv : Env where
  resolveUser := fun t => if t == "tok" then some ⟨"uidA", "a@example.com", "A"⟩ else none
  healthTable := []
  visionTable := []
  pneumoniaTable := []
  uploadOutcome := .ok "https://storage.example/u/img.png"
  healthInsertId := .ok 1
  visionInsert := .ok ⟨1, 10⟩
  pneumoniaInsert := .ok ⟨1, 10⟩
  mnistInsert := .ok ⟨1, 10⟩
  clipInsert := .ok ⟨1, 10⟩
  autoglmInsert := .ok ⟨1, 10⟩
  signOutOutcome := .ok ()
  visionLoaded := true
  visionStatusStr := "Ready"
  visionProgress := 100
  visionLoadRetry := true
  visionText := .ok "a photo"
  pneumoniaLoaded := true
  pneumoniaStatusStr := "Ready"
  pneumoniaProgress := 100
  pipeResults := [⟨"PNEUMONIA", mkRat 9 10⟩, ⟨"NORMAL", mkRat 1 10⟩]
  mnistLogits := fun _ => 0
  expFn := fun _ => 1
  clipLoaded := true
  clipStatusStr := "Ready"
  clipProgress := 100
  clipScore := mkRat 1 2
  autoglmCaption := .ok (some "a cat")

/-- C4: on every bearer-authenticated endpoint, a missing or malformed
Authorization header yields the 401 guard response before any external
call: no auth-provider call, no inference, no upload, no table
operation. -/
theorem C4_auth_guard (env : Env) (auth : Option String)
    (h : authHeaderOk auth = false) (title description category : String)
    (date rid aid imageLen : Nat) (text filename image_url : String) :
    (∀ r ∈ [create_record env auth title description category date,
            get_records env auth,
            get_record env auth rid,
            update_record env auth rid title description category date,
            delete_record env auth rid,
            logout env auth,
            get_user env auth,
            analyze_image env auth,
            get_analysis_history env auth,
            get_analysis env auth aid,
            delete_analysis env auth aid,
            analyze_xray env auth imageLen,
            get_pneumonia_history env auth,
            get_pneumonia_analysis env auth aid,
            delete_pneumonia_analysis env auth aid,
            mnist_infer env auth filename,
            clip_similarity env auth text filename,
            autoglm_infer env auth image_url], r = resp401)
    ∧ resp401.status = 401 ∧ resp401.effects = [] := by
  refine ⟨?_, rfl, rfl⟩
  intro r hr
  simp only [List.mem_cons, List.not_mem_nil, or_false] at hr
  rcases hr with rfl|rfl|rfl|rfl|rfl|rfl|rfl|rfl|rfl|rfl|rfl|rfl|rfl|rfl|rfl|rfl|rfl|rfl <;>
    simp [create_record, get_records, get_record, update_record, delete_record,
      logout, get_user, analyze_image, get_analysis_history, get_analysis,
      delete_analysis, analyze_xray, get_pneumonia_history, get_pneumonia_analysis,
      delete_pneumonia_analysis, mnist_infer, clip_similarity, autoglm_infer, h]

theorem C4_auth_guard_witness :
    authHeaderOk none = false
    ∧ ((∀ r ∈ [create_record baseEnv none "t" "d" "c" 3,
            get_records baseEnv none,
            get_record baseEnv none 1,
            update_record baseEnv none 1 "t" "d" "c" 3,
            delete_record baseEnv none 1,
            logout baseEnv none,
            get_user baseEnv none,
            analyze_image baseEnv none,
            get_analysis_history baseEnv none,
            get_analysis baseEnv none 1,
            delete_analysis baseEnv none 1,
            analyze_xray baseEnv none 4,
            get_pneumonia_history baseEnv none,
            get_pneumonia_analysis baseEnv none 1,
            delete_pneumonia_analysis baseEnv none 1,
            mnist_infer baseEnv none "f.png",
            clip_similarity baseEnv none "txt" "f.png",
            autoglm_infer baseEnv none "http://img"], r = resp401)
       ∧ resp401.status = 401 ∧ resp401.effects = []) :=
  ⟨by decide,
   C4_auth_guard baseEnv none (by decide) "t" "d" "c" 3 1 1 4 "txt" "f.png" "http://img"⟩

/-- In a table with pairwise-distinct ids, a shared id forces equality. -/
theorem eq_of_mem_of_pairwise_ne_id {l : List HealthRecord}
    (hp : l.Pairwise (fun a b => a.id ≠ b.id))
    {x y : HealthRecord} (hx : x ∈ l) (hy : y ∈ l) (hid : x.id = y.id) : x = y := by
  induction l with
  | nil => cases hx
  | cons a as ih =>
    rcases List.pairwise_cons.mp hp with ⟨ha, hp'⟩
    rcases List.mem_cons.mp hx with rfl | hx'
    · rcases List.mem_cons.mp hy with rfl | hy'
      · rfl
      · exact absurd hid (ha y hy')
    · rcases List.mem_cons.mp hy with rfl | hy'
      · exact absurd hid.symm (ha x hx')
      · exact ih hp' hx' hy'

/-- Environment for the cross-owner scenario: token "tokA" resolves to
user A while record 1 of the health table belongs to user B. -/
def c1Env : Env :=
  { baseEnv with
    resolveUser := fun t =>
      if t == "tokA" then some ⟨"A", "a@example.com", "A"⟩
      else if t == "tokB" then some ⟨"B", "b@example.com", "B"⟩
      else none
    healthTable := [⟨1, "B", "B title", "B description", "general", 5⟩] }

/-- C1 counterexample: with user A authenticated and health record 1 owned
by B, the update and delete endpoints answer 200 (silent no-op), not the
404 the claim asserts for all three operations. -/
theorem C1_cross_owner_cex :
    (update_record c1Env (some "Bearer tokA") 1 "x" "y" "z" 9).status = 200
    ∧ (delete_record c1Env (some "Bearer tokA") 1).status = 200 :=
  ⟨rfl, rfl⟩

/-- C1 amended: for owners A ≠ B, A's getById on B's record id answers 404
with a detail-only body; A's update answers 200 with a null data field and
leaves the table unchanged; A's delete answers 200 while B's record stays
in the table.  None of the three ever returns the record's contents. -/
theorem C1_owner_scoping (env : Env) (hdr : String) (A : User) (r : HealthRecord)
    (hauth : authHeaderOk (some hdr) = true)
    (huser : env.resolveUser (bearerToken hdr) = some A)
    (hmem : r ∈ env.healthTable)
    (hown : r.user_id ≠ A.id)
    (huniq : env.healthTable.Pairwise (fun a b => a.id ≠ b.id))
    (title description category : String) (date : Nat) :
    ((get_record env (some hdr) r.id).status = 404
      ∧ (get_record env (some hdr) r.id).body.map Prod.fst = ["detail"])
    ∧ ((update_record env (some hdr) r.id title description category date).status = 200
      ∧ (update_record env (some hdr) r.id title description category date).body.get? 2
          = some ("data", JVal.null)
      ∧ (SupabaseService.update_health_record env (bearerToken hdr) r.id
          title description category date).2.1 = env.healthTable)
    ∧ ((delete_record env (some hdr) r.id).status = 200
      ∧ r ∈ (SupabaseService.delete_health_record env (bearerToken hdr) r.id).2.1) := by
  have hcond : ∀ x ∈ env.healthTable, (x.id == r.id && x.user_id == A.id) = false := by
    intro x hx
    by_cases hid : x.id = r.id
    · have hxr : x = r := eq_of_mem_of_pairwise_ne_id huniq hx hmem hid
      subst hxr
      simp [beq_eq_false_iff_ne, hown]
    · simp [beq_eq_false_iff_ne, hid]
  have hfilter : env.healthTable.filter (fun x => x.id == r.id && x.user_id == A.id) = [] := by
    rw [List.filter_eq_nil_iff]
    intro x hx
    simp [hcond x hx]
  have hmap : env.healthTable.map (fun x =>
      if x.id == r.id && x.user_id == A.id then
        { x with title := title, description := description,
                 category := category, date := date }
      else x) = env.healthTable := by
    conv_rhs => rw [← List.map_id env.healthTable]
    apply List.map_congr_left
    intro x hx
    simp [hcond x hx]
  refine ⟨?_, ⟨?_, ?_, ?_⟩, ?_, ?_⟩
  · constructor <;>
      simp [get_record, hauth, SupabaseService.get_health_record,
        SupabaseService.get_user, huser, hfilter]
  · simp [update_record, hauth, SupabaseService.update_health_record,
      SupabaseService.get_user, huser]
  · simp [update_record, hauth, SupabaseService.update_health_record,
      SupabaseService.get_user, huser, hfilter]
  · simp only [SupabaseService.update_health_record, SupabaseService.get_user, huser]
    exact hmap
  · simp [delete_record, hauth, SupabaseService.delete_health_record,
      SupabaseService.get_user, huser]
  · simp only [SupabaseService.delete_health_record, SupabaseService.get_user, huser]
    exact List.mem_filter.mpr ⟨hmem, by simp [hown]⟩

theorem C1_owner_scoping_witness :
    (authHeaderOk (some "Bearer tokA") = true
      ∧ c1Env.resolveUser (bearerToken "Bearer tokA") = some ⟨"A", "a@example.com", "A"⟩
      ∧ (⟨1, "B", "B title", "B description", "general", 5⟩ : HealthRecord) ∈ c1Env.healthTable
      ∧ ("B" : String) ≠ "A"
      ∧ c1Env.healthTable.Pairwise (fun a b => a.id ≠ b.id))
    ∧ (((get_record c1Env (some "Bearer tokA") 1).status = 404
      ∧ (get_record c1Env (some "Bearer tokA") 1).body.map Prod.fst = ["detail"])
    ∧ ((update_record c1Env (some "Bearer tokA") 1 "x" "y" "z" 9).status = 200
      ∧ (update_record c1Env (some "Bearer tokA") 1 "x" "y" "z" 9).body.get? 2
          = some ("data", JVal.null)
      ∧ (SupabaseService.update_health_record c1Env (bearerToken "Bearer tokA") 1
          "x" "y" "z" 9).2.1 = c1Env.healthTable)
    ∧ ((delete_record c1Env (some "Bearer tokA") 1).status = 200
      ∧ (⟨1, "B", "B title", "B description", "general", 5⟩ : HealthRecord)
          ∈ (SupabaseService.delete_health_record c1Env (bearerToken "Bearer tokA") 1).2.1)) :=
  ⟨⟨by decide, by decide, by decide, by decide, by decide⟩,
   C1_owner_scoping c1Env "Bearer tokA" ⟨"A", "a@example.com", "A"⟩
     ⟨1, "B", "B title", "B description", "general", 5⟩
     (by decide) (by decide) (by decide) (by decide) (by decide) "x" "y" "z" 9⟩

/-- Environment in which neither inference pipeline is loaded and the
retry load fails, while auth and storage succeed. -/
def c5Env : Env :=
  { baseEnv with
    visionLoaded := false
    visionStatusStr := "Error: load failed"
    visionProgress := 0
    visionLoadRetry := false
    pneumoniaLoaded := false
    pneumoniaStatusStr := "Loading pipeline..."
    pneumoniaProgress := 50 }

/-- C5: at the failing input (valid bearer token, nonempty image, upload
succeeding, model not loaded, reload failing) POST /api/vision/analyze
answers 500 — the 503 `HTTPException` its handler raises is caught by its
own blanket `except Exception` clause and re-raised as a 500 — whereas
POST /api/pneumonia/analyze, whose handler re-raises `HTTPException`,
answers 503 as specified. -/
theorem C5_model_not_ready_status :
    (analyze_image c5Env (some "Bearer tok")).status = 500
    ∧ (analyze_xray c5Env (some "Bearer tok") 4).status = 503 :=
  ⟨rfl, rfl⟩

/-- Environment in which everything succeeds except the insert into the
`pneumonia_analyses` table. -/
def c6Env : Env :=
  { baseEnv with pneumoniaInsert := .error "insert failed: row-level security policy violation" }

/-- Looking up a key inside the `data` object of a response body. -/
def dataField (b : JBody) (k : String) : Option JVal :=
  match b.lookup "data" with
  | some (JVal.obj fields) => fields.lookup k
  | _ => none

/-- C6 counterexample: with the auth provider, the storage upload and the
classifier all succeeding but the `create_pneumonia_analysis` insert
failing, POST /api/pneumonia/analyze still answers 200 with
`success: true`, a null `analysis_id`, and no error detail: the
dependency failure is silently swallowed. -/
theorem C6_insert_failure_swallowed_cex :
    (analyze_xray c6Env (some "Bearer tok") 4).status = 200
    ∧ (analyze_xray c6Env (some "Bearer tok") 4).body.lookup "success"
        = some (JVal.bool true)
    ∧ (analyze_xray c6Env (some "Bearer tok") 4).body.lookup "detail" = none
    ∧ dataField (analyze_xray c6Env (some "Bearer tok") 4).body "analysis_id"
        = some JVal.null :=
  ⟨rfl, rfl, rfl, rfl⟩

/-- C6 amended: on POST /api/pneumonia/analyze, an upload failure is
surfaced as a 400 whose detail carries the dependency's message verbatim,
and a classifier failure as a 500; but a failed pneumonia table insert is
not surfaced — the endpoint answers 200 with `success: true` and a null
`analysis_id`. -/
theorem C6_failure_surfacing (env : Env) (hdr : String) (u : User) (imageLen : Nat)
    (hauth : authHeaderOk (some hdr) = true)
    (huser : env.resolveUser (bearerToken hdr) = some u)
    (hlen : imageLen ≠ 0)
    (hloaded : env.pneumoniaLoaded = true) :
    (∀ e, env.uploadOutcome = .error e →
      (analyze_xray env (some hdr) imageLen).status = 400
      ∧ (analyze_xray env (some hdr) imageLen).body
          = [("detail", JVal.str ("Failed to upload image: " ++ e))])
    ∧ (∀ url top rest e,
        env.uploadOutcome = .ok url → env.pipeResults = top :: rest →
        env.pneumoniaInsert = .error e →
      (analyze_xray env (some hdr) imageLen).status = 200
      ∧ (analyze_xray env (some hdr) imageLen).body.get? 0
          = some ("success", JVal.bool true)
      ∧ dataField (analyze_xray env (some hdr) imageLen).body "analysis_id"
          = some JVal.null) := by
  have hlen' : (imageLen == 0) = false := by simp [hlen]
  constructor
  · intro e hup
    constructor <;>
      simp [analyze_xray, hauth, hlen', hloaded,
        SupabaseService.upload_pneumonia_image, SupabaseService.get_user, huser, hup]
  · intro url top rest e hup hpipe hins
    refine ⟨?_, ?_, ?_⟩ <;>
      simp [analyze_xray, hauth, hlen', hloaded, classify_xray, hpipe,
        SupabaseService.upload_pneumonia_image, SupabaseService.create_pneumonia_analysis,
        SupabaseService.get_user, huser, hup, hins, dataField, List.lookup]

theorem C6_failure_surfacing_witness :
    (authHeaderOk (some "Bearer tok") = true
      ∧ c6Env.resolveUser (bearerToken "Bearer tok")
          = some ⟨"uidA", "a@example.com", "A"⟩
      ∧ (4 : Nat) ≠ 0
      ∧ c6Env.pneumoniaLoaded = true)
    ∧ ((∀ e, c6Env.uploadOutcome = .error e →
        (analyze_xray c6Env (some "Bearer tok") 4).status = 400
        ∧ (analyze_xray c6Env (some "Bearer tok") 4).body
            = [("detail", JVal.str ("Failed to upload image: " ++ e))])
      ∧ (∀ url top rest e,
          c6Env.uploadOutcome = .ok url → c6Env.pipeResults = top :: rest →
          c6Env.pneumoniaInsert = .error e →
        (analyze_xray c6Env (some "Bearer tok") 4).status = 200
        ∧ (analyze_xray c6Env (some "Bearer tok") 4).body.get? 0
            = some ("success", JVal.bool true)
        ∧ dataField (analyze_xray c6Env (some "Bearer tok") 4).body "analysis_id"
            = some JVal.null)) :=
  ⟨⟨by decide, by decide, by decide, rfl⟩,
   C6_failure_surfacing c6Env "Bearer tok" ⟨"uidA", "a@example.com", "A"⟩ 4
     (by decide) (by decide) (by decide) rfl⟩

/-- C7 counterexample: GET /api/clip/status and GET /api/autoglm/status
answer 200 with JSON bodies that contain no `success` key at all. -/
theorem C7_status_no_success_cex :
    (clip_model_status baseEnv).status = 200
    ∧ "success" ∉ (clip_model_status baseEnv).body.map Prod.fst
    ∧ autoglm_status.status = 200
    ∧ "success" ∉ autoglm_status.body.map Prod.fst :=
  ⟨rfl, by decide, rfl, by decide⟩

/-- C7 amended: every HTTP 200 response of the bearer-authenticated
endpoints carries `success: true` as its first field, and so do the
vision and pneumonia status endpoints; but GET /api/clip/status and
GET /api/autoglm/status return the raw loading-status object with no
`success` field (and FastAPI error responses carry only `detail`). -/
theorem C7_success_field (env : Env) (auth : Option String)
    (title description category : String) (date rid aid imageLen : Nat)
    (text filename image_url : String) :
    (∀ r ∈ [create_record env auth title description category date,
            get_records env auth,
            get_record env auth rid,
            update_record env auth rid title description category date,
            delete_record env auth rid,
            logout env auth,
            get_user env auth,
            analyze_image env auth,
            get_analysis_history env auth,
            get_analysis env auth aid,
            delete_analysis env auth aid,
            analyze_xray env auth imageLen,
            get_pneumonia_history env auth,
            get_pneumonia_analysis env auth aid,
            delete_pneumonia_analysis env auth aid,
            mnist_infer env auth filename,
            clip_similarity env auth text filename,
            autoglm_infer env auth image_url],
        r.status = 200 → r.body.get? 0 = some ("success", JVal.bool true))
    ∧ (get_vision_status env).body.get? 0 = some ("success", JVal.bool true)
    ∧ (get_pneumonia_status env).body.get? 0 = some ("success", JVal.bool true)
    ∧ "success" ∉ (clip_model_status env).body.map Prod.fst
    ∧ "success" ∉ autoglm_status.body.map Prod.fst := by
  refine ⟨?_, rfl, rfl, by simp [clip_model_status], by decide⟩
  intro r hr
  simp only [List.mem_cons, List.not_mem_nil, or_false] at hr
  rcases hr with rfl|rfl|rfl|rfl|rfl|rfl|rfl|rfl|rfl|rfl|rfl|rfl|rfl|rfl|rfl|rfl|rfl|rfl
  · intro h200
    simp only [create_record] at h200 ⊢
    by_cases hA : authHeaderOk auth = true
    · rcases hS : SupabaseService.create_health_record env (bearerToken (auth.getD ""))
          title description category date with ⟨res | res, effs⟩ <;> simp_all
    · simp_all [resp401]
  · intro h200
    simp only [get_records] at h200 ⊢
    by_cases hA : authHeaderOk auth = true
    · rcases hS : SupabaseService.get_health_records env (bearerToken (auth.getD ""))
          with ⟨res | res, effs⟩ <;> simp_all
    · simp_all [resp401]
  · intro h200
    simp only [get_record] at h200 ⊢
    by_cases hA : authHeaderOk auth = true
    · rcases hS : SupabaseService.get_health_record env (bearerToken (auth.getD "")) rid
          with ⟨res | res, effs⟩ <;> simp_all
    · simp_all [resp401]
  · intro h200
    simp only [update_record] at h200 ⊢
    by_cases hA : authHeaderOk auth = true
    · rcases hS : SupabaseService.update_health_record env (bearerToken (auth.getD "")) rid
          title description category date with ⟨res | res, tbl, effs⟩ <;> simp_all
    · simp_all [resp401]
  · intro h200
    simp only [delete_record] at h200 ⊢
    by_cases hA : authHeaderOk auth = true
    · rcases hS : SupabaseService.delete_health_record env (bearerToken (auth.getD "")) rid
          with ⟨res | res, tbl, effs⟩ <;> simp_all
    · simp_all [resp401]
  · intro h200
    simp only [logout] at h200 ⊢
    by_cases hA : authHeaderOk auth = true
    · rcases hS : SupabaseService.sign_out env (bearerToken (auth.getD ""))
          with ⟨res | res, effs⟩ <;> simp_all
    · simp_all [resp401]
  · intro h200
    simp only [get_user] at h200 ⊢
    by_cases hA : authHeaderOk auth = true
    · rcases hS : SupabaseService.get_user env (bearerToken (auth.getD ""))
          with _ | u <;> simp_all
    · simp_all [resp401]
  · intro h200
    simp only [analyze_image] at h200 ⊢
    by_cases hA : authHeaderOk auth = true
    · rcases hS : SupabaseService.upload_image env (bearerToken (auth.getD ""))
          with ⟨res | res, effs⟩
      · simp_all
      · cases hL : env.visionLoaded <;> cases hR : env.visionLoadRetry
        · simp_all
        · rcases hT : env.visionText with e | txt
          · simp_all
          · rcases hC : SupabaseService.create_vision_analysis env (bearerToken (auth.getD ""))
                with ⟨res2 | res2, effs2⟩ <;> simp_all
        · rcases hT : env.visionText with e | txt
          · simp_all
          · rcases hC : SupabaseService.create_vision_analysis env (bearerToken (auth.getD ""))
                with ⟨res2 | res2, effs2⟩ <;> simp_all
        · rcases hT : env.visionText with e | txt
          · simp_all
          · rcases hC : SupabaseService.create_vision_analysis env (bearerToken (auth.getD ""))
                with ⟨res2 | res2, effs2⟩ <;> simp_all
    · simp_all [resp401]
  · intro h200
    simp only [get_analysis_history] at h200 ⊢
    by_cases hA : authHeaderOk auth = true
    · rcases hS : SupabaseService.get_vision_analyses env (bearerToken (auth.getD ""))
          with ⟨res | res, effs⟩ <;> simp_all
    · simp_all [resp401]
  · intro h200
    simp only [get_analysis] at h200 ⊢
    by_cases hA : authHeaderOk auth = true
    · rcases hS : SupabaseService.get_vision_analysis env (bearerToken (auth.getD "")) aid
          with ⟨res | res, effs⟩ <;> simp_all
    · simp_all [resp401]
  · intro h200
    simp only [delete_analysis] at h200 ⊢
    by_cases hA : authHeaderOk auth = true
    · rcases hS : SupabaseService.delete_vision_analysis env (bearerToken (auth.getD "")) aid
          with ⟨res | res, tbl, effs⟩ <;> simp_all
    · simp_all [resp401]
  · intro h200
    simp only [analyze_xray] at h200 ⊢
    by_cases hA : authHeaderOk auth = true
    · by_cases hL : (imageLen == 0) = true
      · simp_all
      · by_cases hP : env.pneumoniaLoaded = true
        · rcases hS : SupabaseService.upload_pneumonia_image env (bearerToken (auth.getD ""))
              with ⟨res | res, effs⟩
          · simp_all
          · rcases hC : classify_xray env with e | c
            · simp_all
            · rcases hD : SupabaseService.create_pneumonia_analysis env (bearerToken (auth.getD ""))
                  with ⟨res2 | res2, effs2⟩ <;> simp_all
        · simp_all
    · simp_all [resp401]
  · intro h200
    simp only [get_pneumonia_history] at h200 ⊢
    by_cases hA : authHeaderOk auth = true
    · rcases hS : SupabaseService.get_pneumonia_analyses env (bearerToken (auth.getD ""))
          with ⟨res | res, effs⟩ <;> simp_all
    · simp_all [resp401]
  · intro h200
    simp only [get_pneumonia_analysis] at h200 ⊢
    by_cases hA : authHeaderOk auth = true
    · rcases hS : SupabaseService.get_pneumonia_analysis env (bearerToken (auth.getD "")) aid
          with ⟨res | res, effs⟩ <;> simp_all
    · simp_all [resp401]
  · intro h200
    simp only [delete_pneumonia_analysis] at h200 ⊢
    by_cases hA : authHeaderOk auth = true
    · rcases hS : SupabaseService.delete_pneumonia_analysis env (bearerToken (auth.getD "")) aid
          with ⟨res | res, tbl, effs⟩ <;> simp_all
    · simp_all [resp401]
  · intro h200
    simp only [mnist_infer] at h200 ⊢
    by_cases hA : authHeaderOk auth = true
    · rcases hS : SupabaseService.upload_mnist_image env (bearerToken (auth.getD ""))
          with ⟨res | res, effs⟩
      · rcases hD : SupabaseService.create_mnist_analysis env (bearerToken (auth.getD ""))
            with ⟨db, effs2⟩ <;> simp_all
      · simp_all
    · simp_all [resp401]
  · intro h200
    simp only [clip_similarity] at h200 ⊢
    by_cases hA : authHeaderOk auth = true
    · by_cases hC : env.clipLoaded = true
      · rcases hS : SupabaseService.upload_image env (bearerToken (auth.getD ""))
            with ⟨res | res, effs⟩
        · rcases hD : SupabaseService.create_clip_analysis env (bearerToken (auth.getD ""))
              with ⟨db, effs2⟩ <;> simp_all
        · simp_all
      · simp_all
    · simp_all [resp401]
  · intro h200
    simp only [autoglm_infer] at h200 ⊢
    by_cases hA : authHeaderOk auth = true
    · rcases hT : env.autoglmCaption with e | cap
      · simp_all
      · rcases hD : SupabaseService.create_autoglm_analysis env (bearerToken (auth.getD ""))
            with ⟨db, effs2⟩ <;> simp_all
    · simp_all [resp401]

theorem C7_success_field_witness :
    (∀ r ∈ [create_record baseEnv (some "Bearer tok") "t" "d" "c" 3,
            get_records baseEnv (some "Bearer tok"),
            get_record baseEnv (some "Bearer tok") 1,
            update_record baseEnv (some "Bearer tok") 1 "t" "d" "c" 3,
            delete_record baseEnv (some "Bearer tok") 1,
            logout baseEnv (some "Bearer tok"),
            get_user baseEnv (some "Bearer tok"),
            analyze_image baseEnv (some "Bearer tok"),
            get_analysis_history baseEnv (some "Bearer tok"),
            get_analysis baseEnv (some "Bearer tok") 1,
            delete_analysis baseEnv (some "Bearer tok") 1,
            analyze_xray baseEnv (some "Bearer tok") 4,
            get_pneumonia_history baseEnv (some "Bearer tok"),
            get_pneumonia_analysis baseEnv (some "Bearer tok") 1,
            delete_pneumonia_analysis baseEnv (some "Bearer tok") 1,
            mnist_infer baseEnv (some "Bearer tok") "f.png",
            clip_similarity baseEnv (some "Bearer tok") "txt" "f.png",
            autoglm_infer baseEnv (some "Bearer tok") "http://img"],
        r.status = 200 → r.body.get? 0 = some ("success", JVal.bool true))
    ∧ (get_vision_status baseEnv).body.get? 0 = some ("success", JVal.bool true)
    ∧ (get_pneumonia_status baseEnv).body.get? 0 = some ("success", JVal.bool true)
    ∧ "success" ∉ (clip_model_status baseEnv).body.map Prod.fst
    ∧ "success" ∉ autoglm_status.body.map Prod.fst :=
  C7_success_field baseEnv (some "Bearer tok") "t" "d" "c" 3 1 1 4 "txt" "f.png" "http://img"

/-- C8: for every owner, each list operation returns all and only that
owner's rows, ordered descending by the feature column: `date` for health
records, `created_at` for vision and pneumonia analyses. -/
theorem C8_list_scoped_and_ordered (env : Env) (tok : String) (u : User)
    (huser : env.resolveUser tok = some u) :
    (∃ rows, (SupabaseService.get_health_records env tok).1 = .ok rows
      ∧ (∀ r, r ∈ rows ↔ r ∈ env.healthTable ∧ r.user_id = u.id)
      ∧ rows.Sorted (fun a b => b.date ≤ a.date))
    ∧ (∃ rows, (SupabaseService.get_vision_analyses env tok).1 = .ok rows
      ∧ (∀ r, r ∈ rows ↔ r ∈ env.visionTable ∧ r.user_id = u.id)
      ∧ rows.Sorted (fun a b => b.created_at ≤ a.created_at))
    ∧ (∃ rows, (SupabaseService.get_pneumonia_analyses env tok).1 = .ok rows
      ∧ (∀ r, r ∈ rows ↔ r ∈ env.pneumoniaTable ∧ r.user_id = u.id)
      ∧ rows.Sorted (fun a b => b.created_at ≤ a.created_at)) := by
  refine ⟨⟨sortByDateDesc (env.healthTable.filter (fun r => r.user_id == u.id)), ?_, ?_, ?_⟩,
          ⟨sortByCreatedDesc (env.visionTable.filter (fun r => r.user_id == u.id)), ?_, ?_, ?_⟩,
          ⟨sortByCreatedDesc (env.pneumoniaTable.filter (fun r => r.user_id == u.id)), ?_, ?_, ?_⟩⟩
  · simp [SupabaseService.get_health_records, SupabaseService.get_user, huser]
  · intro r
    unfold sortByDateDesc
    rw [(List.perm_insertionSort _ _).mem_iff, List.mem_filter]
    simp
  · unfold sortByDateDesc
    haveI : IsTotal HealthRecord (fun a b => b.date ≤ a.date) :=
      ⟨fun a b => le_total b.date a.date⟩
    haveI : IsTrans HealthRecord (fun a b => b.date ≤ a.date) :=
      ⟨fun _ _ _ x y => le_trans y x⟩
    exact List.sorted_insertionSort _ _
  · simp [SupabaseService.get_vision_analyses, SupabaseService.get_user, huser]
  · intro r
    unfold sortByCreatedDesc
    rw [(List.perm_insertionSort _ _).mem_iff, List.mem_filter]
    simp
  · unfold sortByCreatedDesc
    haveI : IsTotal AnalysisRow (fun a b => b.created_at ≤ a.created_at) :=
      ⟨fun a b => le_total b.created_at a.created_at⟩
    haveI : IsTrans AnalysisRow (fun a b => b.created_at ≤ a.created_at) :=
      ⟨fun _ _ _ x y => le_trans y x⟩
    exact List.sorted_insertionSort _ _
  · simp [SupabaseService.get_pneumonia_analyses, SupabaseService.get_user, huser]
  · intro r
    unfold sortByCreatedDesc
    rw [(List.perm_insertionSort _ _).mem_iff, List.mem_filter]
    simp
  · unfold sortByCreatedDesc
    haveI : IsTotal AnalysisRow (fun a b => b.created_at ≤ a.created_at) :=
      ⟨fun a b => le_total b.created_at a.created_at⟩
    haveI : IsTrans AnalysisRow (fun a b => b.created_at ≤ a.created_at) :=
      ⟨fun _ _ _ x y => le_trans y x⟩
    exact List.sorted_insertionSort _ _

/-- Environment with populated tables for two owners. -/
def c8Env : Env :=
  { baseEnv with
    healthTable := [⟨1, "uidA", "t1", "d1", "c1", 3⟩, ⟨2, "uidB", "t2", "d2", "c2", 9⟩,
                    ⟨3, "uidA", "t3", "d3", "c3", 7⟩]
    visionTable := [⟨1, "uidA", 4⟩, ⟨2, "uidA", 8⟩, ⟨3, "uidB", 6⟩]
    pneumoniaTable := [⟨1, "uidB", 5⟩, ⟨2, "uidA", 2⟩, ⟨3, "uidA", 11⟩] }

theorem C8_list_scoped_and_ordered_witness :
    c8Env.resolveUser "tok" = some ⟨"uidA", "a@example.com", "A"⟩
    ∧ ((∃ rows, (SupabaseService.get_health_records c8Env "tok").1 = .ok rows
      ∧ (∀ r, r ∈ rows ↔ r ∈ c8Env.healthTable ∧ r.user_id = "uidA")
      ∧ rows.Sorted (fun a b => b.date ≤ a.date))
    ∧ (∃ rows, (SupabaseService.get_vision_analyses c8Env "tok").1 = .ok rows
      ∧ (∀ r, r ∈ rows ↔ r ∈ c8Env.visionTable ∧ r.user_id = "uidA")
      ∧ rows.Sorted (fun a b => b.created_at ≤ a.created_at))
    ∧ (∃ rows, (SupabaseService.get_pneumonia_analyses c8Env "tok").1 = .ok rows
      ∧ (∀ r, r ∈ rows ↔ r ∈ c8Env.pneumoniaTable ∧ r.user_id = "uidA")
      ∧ rows.Sorted (fun a b => b.created_at ≤ a.created_at))) :=
  ⟨by decide,
   C8_list_scoped_and_ordered c8Env "tok" ⟨"uidA", "a@example.com", "A"⟩ (by decide)⟩

/-- `argmaxAux` returns either the running best index or an index of the
remaining segment. -/
theorem argmaxAux_lt (xs : List ℚ) :
    ∀ (i best : Nat) (bv : ℚ), best < i → argmaxAux i best bv xs < i + xs.length := by
  induction xs with
  | nil =>
    intro i best bv h
    simpa [argmaxAux] using h
  | cons x xs ih =>
    intro i best bv h
    by_cases hc : bv < x
    · have hrec := ih (i + 1) i x (Nat.lt_succ_self i)
      simp only [argmaxAux, if_pos hc, List.length_cons]
      omega
    · have hrec := ih (i + 1) best bv (h.trans (Nat.lt_succ_self i))
      simp only [argmaxAux, if_neg hc, List.length_cons]
      omega

/-- On a nonempty list, `argmax` is an index of the list. -/
theorem argmax_lt_length (xs : List ℚ) (h : xs ≠ []) : argmax xs < xs.length := by
  cases xs with
  | nil => cases h rfl
  | cons x xs =>
    have hrec := argmaxAux_lt xs 1 0 x Nat.zero_lt_one
    simp only [argmax, List.length_cons]
    omega

/-- C9: the digit endpoint's probability vector is the softmax of the
model logits: it has length 10 and sums exactly to 1 (hence within 1e-4
of 1.0), and the returned prediction is its argmax index, a digit class
in 0–9; the response body carries exactly this vector and prediction. -/
theorem C9_mnist_probabilities (env : Env) (hdr : String) (u : User) (url filename : String)
    (hE : ∀ x, 0 < env.expFn x)
    (hauth : authHeaderOk (some hdr) = true)
    (huser : env.resolveUser (bearerToken hdr) = some u)
    (hup : env.uploadOutcome = .ok url) :
    (List.ofFn (softmax env.expFn env.mnistLogits)).length = 10
    ∧ (List.ofFn (softmax env.expFn env.mnistLogits)).sum = 1
    ∧ |(List.ofFn (softmax env.expFn env.mnistLogits)).sum - 1| ≤ mkRat 1 10000
    ∧ argmax (List.ofFn (softmax env.expFn env.mnistLogits)) < 10
    ∧ (mnist_infer env (some hdr) filename).body.get? 1
        = some ("prediction",
            JVal.num (argmax (List.ofFn (softmax env.expFn env.mnistLogits))))
    ∧ (mnist_infer env (some hdr) filename).body.get? 2
        = some ("probabilities",
            JVal.arr ((List.ofFn (softmax env.expFn env.mnistLogits)).map JVal.num)) := by
  have hsum : (List.ofFn (softmax env.expFn env.mnistLogits)).sum = 1 := by
    rw [List.sum_ofFn]
    unfold softmax
    rw [← Finset.sum_div]
    exact div_self (ne_of_gt (Finset.sum_pos (fun i _ => hE _) ⟨0, Finset.mem_univ 0⟩))
  have hlen : (List.ofFn (softmax env.expFn env.mnistLogits)).length = 10 := by simp
  refine ⟨hlen, hsum, ?_, ?_, ?_, ?_⟩
  · rw [hsum]
    simp [Rat.mkRat_eq_div]
  · have hne : List.ofFn (softmax env.expFn env.mnistLogits) ≠ [] := by
      intro hnil
      rw [hnil] at hlen
      simp at hlen
    have := argmax_lt_length _ hne
    omega
  · simp [mnist_infer, hauth, SupabaseService.upload_mnist_image,
      SupabaseService.get_user, huser, hup]
  · simp [mnist_infer, hauth, SupabaseService.upload_mnist_image,
      SupabaseService.get_user, huser, hup]

theorem C9_mnist_probabilities_witness :
    ((∀ x, 0 < baseEnv.expFn x)
      ∧ authHeaderOk (some "Bearer tok") = true
      ∧ baseEnv.resolveUser (bearerToken "Bearer tok")
          = some ⟨"uidA", "a@example.com", "A"⟩
      ∧ baseEnv.uploadOutcome = .ok "https://storage.example/u/img.png")
    ∧ ((List.ofFn (softmax baseEnv.expFn baseEnv.mnistLogits)).length = 10
    ∧ (List.ofFn (softmax baseEnv.expFn baseEnv.mnistLogits)).sum = 1
    ∧ |(List.ofFn (softmax baseEnv.expFn baseEnv.mnistLogits)).sum - 1| ≤ mkRat 1 10000
    ∧ argmax (List.ofFn (softmax baseEnv.expFn baseEnv.mnistLogits)) < 10
    ∧ (mnist_infer baseEnv (some "Bearer tok") "f.png").body.get? 1
        = some ("prediction",
            JVal.num (argmax (List.ofFn (softmax baseEnv.expFn baseEnv.mnistLogits))))
    ∧ (mnist_infer baseEnv (some "Bearer tok") "f.png").body.get? 2
        = some ("probabilities",
            JVal.arr ((List.ofFn (softmax baseEnv.expFn baseEnv.mnistLogits)).map JVal.num))) :=
  ⟨⟨fun _ => one_pos, by decide, by decide, rfl⟩,
   C9_mnist_probabilities baseEnv "Bearer tok" ⟨"uidA", "a@example.com", "A"⟩
     "https://storage.example/u/img.png" "f.png"
     (fun _ => one_pos) (by decide) (by decide) rfl⟩
